import Mathlib

/-!
Verification of the `service-runner` repository (Go) against its
natural-language specification, via a shallow embedding of `config.go`
and `serviceRunner.go` into Lean.

Conventions of the embedding:
* Go `error` values become `Option GoErr` (`none` = `nil`).
* The outcome of one actor's `execute` is `Outcome` (`success` = `nil`
  error, `failure c` = the non-nil error `c`).
* Observable side effects (closing the listener, calling a cleanup's
  `Close`, the http-failure log line) are recorded as `Event`s in traces.
* The third-party group engine `run.Group` (package `oklog/run`) is not
  part of the repository's sources; it is modelled from the spec's
  ActorGroup contract (see `Group.run`).
-/

namespace ServiceRunner

/-- Go `error` values that occur in the program: the sentinel
`http.ErrServerClosed` and any other error, carrying its message. -/
inductive GoErr where
  | serverClosed
  | other (msg : String)
deriving DecidableEq, Repr

/-- The terminal result of one actor's `execute`: in Go a `nil` error
(`success`) or a non-nil error (`failure cause`). -/
inductive Outcome where
  | success
  | failure (cause : GoErr)
deriving DecidableEq, Repr

/-- Observable events emitted while actors run:
`closeListener` is the watcher's `srv.Close()` call, `release i` is the
call `r.cleanup[i].Close()`, `logHttpError c` is the http server actor's
interrupt callback logging a non-nil error. -/
inductive Event where
  | closeListener
  | release (i : Nat)
  | logHttpError (cause : GoErr)
deriving DecidableEq, Repr

/-- The cancellation context handle (`context.Context`); the embedding
only needs its identity, so it is an opaque token. -/
abbrev Ctx : Type := Nat

/-- `type RunFn func(ctx context.Context)`: a background function,
observed through the trace of events it emits when called with a context. -/
abbrev RunFn : Type := Ctx → List Event

/-- `io.Closer`: a value whose `Close()` returns an error (`none` = nil).
`io.NopCloser(nil)` is the closer with `closeErr = none`. -/
structure Closer where
  closeErr : Option GoErr
deriving DecidableEq, Repr

/-- `Close()` of an `io.Closer` (`closer.Close()` in `serviceRunner.go`
returns the wrapped function's error; here the stored result). -/
def Closer.Close (c : Closer) : Option GoErr := c.closeErr

/-! ## config.go -/

/-- `DefaultConfig` from `config.go`: server name, host and port, with
envconfig struct tags `default:"server"`, `default:""`, `default:"8000"`. -/
structure DefaultConfig where
  ServerName : String
  HostName : String
  ServerPort : Int
deriving DecidableEq, Repr

/-- `func (c DefaultConfig) addr() string`:
`fmt.Sprintf("%s:%d", c.HostName, c.ServerPort)`. -/
def DefaultConfig.addr (c : DefaultConfig) : String :=
  c.HostName ++ ":" ++ toString c.ServerPort

/-- `func (c DefaultConfig) Name() string`. -/
def DefaultConfig.Name (c : DefaultConfig) : String := c.ServerName

/-- `func (c DefaultConfig) Host() string`. -/
def DefaultConfig.Host (c : DefaultConfig) : String := c.HostName

/-- `func (c DefaultConfig) Port() int`. -/
def DefaultConfig.Port (c : DefaultConfig) : Int := c.ServerPort

/-- `func NewConfigWithHost(name, host string, port int) Config`. -/
def NewConfigWithHost (name host : String) (port : Int) : DefaultConfig :=
  { ServerName := name, HostName := host, ServerPort := port }

/-- `func NewConfig(name string, port int) Config`:
`NewConfigWithHost(name, "", port)`. -/
def NewConfig (name : String) (port : Int) : DefaultConfig :=
  NewConfigWithHost name "" port

/-- Modelled from the spec: `NewEnvConfig` delegates to the external
`envconfig` library (not in the sources); with no `SERVER_*` environment
variables set it resolves the struct-tag defaults of `DefaultConfig`:
name `"server"`, host `""` (all interfaces), port `8000`. -/
def NewEnvConfig : DefaultConfig :=
  { ServerName := "server", HostName := "", ServerPort := 8000 }

/-! ## The actor-group engine (`run.Group`, modelled from the spec) -/

/-- One registered actor of the group, as `run.Group` sees it: a blocking
`execute` — observed as the trace of events it emits and the outcome it
returns — and an `interrupt` callback receiving the triggering outcome and
possibly emitting events (e.g. a log line). -/
structure GroupActor where
  execute : List Event × Outcome
  interrupt : Outcome → List Event

/-- What one `Run()` of the group produces: the group outcome, the list of
indices of actors whose `interrupt` was invoked, and the trace the
triggering actor's `execute` emitted before the group returned. -/
structure GroupRunResult where
  outcome : Outcome
  interrupts : List Nat
  triggerTrace : List Event
deriving Repr

/-- Modelled from the spec: the ActorGroup engine (the third-party
`run.Group`, whose sources are not in the repository). Per the spec's
contract: every registered actor's `execute` is launched concurrently;
the first to return — the *trigger*, chosen here by the scheduling
parameter `t` — produces an outcome `O`; `interrupt O` is then invoked
exactly once on every actor other than the trigger; after all joins,
`Run()` returns `O`. -/
def Group.run (actors : List GroupActor) (t : Fin actors.length) : GroupRunResult :=
  let a := actors.get t
  { outcome := a.execute.2
    interrupts := (List.range actors.length).filter (fun i => i ≠ t.val)
    triggerTrace := a.execute.1 }

/-! ## serviceRunner.go -/

/-- Identity of an assembled actor: the http listener actor added by
`startHttpServer`, the cancellation watcher added by `Run`, or the wrapper
of the `i`-th registered background function. -/
inductive ActorId where
  | listener
  | watcher
  | background (i : Nat)
deriving DecidableEq, Repr

/-- The http server actor's `execute` (`startHttpServer`, lines 114-120):
`srv.ListenAndServe()` ends with `serveErr`; a non-nil error other than
`http.ErrServerClosed` is returned, anything else becomes `nil`. -/
def serverExecute (serveErr : Option GoErr) : Outcome :=
  match serveErr with
  | none => .success
  | some .serverClosed => .success
  | some (.other msg) => .failure (.other msg)

/-- The http server actor added by `startHttpServer`: `execute` serves
until `serveErr` ends it; `interrupt` logs "http server failure" when the
triggering error is non-nil. -/
def listenerActor (serveErr : Option GoErr) : GroupActor :=
  { execute := ([], serverExecute serveErr)
    interrupt := fun o =>
      match o with
      | .success => []
      | .failure c => [.logHttpError c] }

/-- The cancellation watcher actor added by `Run` (lines 152-159):
`execute` blocks on `<-ctx.Done()`, then `_ = srv.Close()`, then
`_ = closer.Close()` for each registered cleanup in registration order
(errors discarded), then returns `nil`; its interrupt callback does
nothing. -/
def watcherActor (srv : Closer) (cleanup : List Closer) : GroupActor :=
  { execute :=
      (.closeListener :: (List.range cleanup.length).map .release, .success)
    interrupt := fun _ => [] }

/-- The wrapper actor of one background function (lines 161-168 and
131-136): `execute` calls `runFn(ctx)` and returns `nil` unconditionally;
its interrupt callback does nothing. -/
def backgroundActor (ctx : Ctx) (fn : RunFn) : GroupActor :=
  { execute := (fn ctx, .success)
    interrupt := fun _ => [] }

/-- The runner struct (`serviceRunner.go` line 88): configuration, logger
handle, registered background functions, registered cleanups, testing
flag. The embedded `*run.Group` is represented by the actor lists the
methods assemble (`runActors` / `asyncActors`). -/
structure Runner where
  serverConfig : DefaultConfig
  logger : Nat
  runners : List RunFn
  cleanup : List Closer
  forTesting : Bool

/-- `func New(serverConfig Config, logger *slog.Logger, testing ...bool) Runner`:
the testing flag is set iff exactly one variadic argument was passed and
it is `true`. -/
def New (serverConfig : DefaultConfig) (logger : Nat) (testing : List Bool) : Runner :=
  { serverConfig := serverConfig
    logger := logger
    runners := []
    cleanup := []
    forTesting := testing.length == 1 && testing.headD false }

/-- `func NewEnv(logger *slog.Logger, testing ...bool) Runner`:
`New(NewEnvConfig(), logger, testing...)`. -/
def NewEnv (logger : Nat) (testing : List Bool) : Runner :=
  New NewEnvConfig logger testing

/-- `func (r *runner) AddRunner(runners ...RunFn) Runner`: appends to the
background-function list and returns the (updated) runner. -/
def Runner.AddRunner (r : Runner) (fns : List RunFn) : Runner :=
  { r with runners := r.runners ++ fns }

/-- `func (r *runner) OnClose(cleanup ...io.Closer) Runner`: appends to
the cleanup list and returns the (updated) runner. -/
def Runner.OnClose (r : Runner) (cs : List Closer) : Runner :=
  { r with cleanup := r.cleanup ++ cs }

/-- `func (r *runner) startHttpServer(mu http.Handler) io.Closer`:
in testing mode returns `io.NopCloser(nil)` and registers no actor;
otherwise registers the http server actor and returns the server (whose
`Close()` result is `srvCloseErr`). The pair is (returned closer,
actor registered on the group, if any). -/
def Runner.startHttpServer (r : Runner) (serveErr srvCloseErr : Option GoErr) :
    Closer × Option GroupActor :=
  if r.forTesting then
    ({ closeErr := none }, none)
  else
    ({ closeErr := srvCloseErr }, some (listenerActor serveErr))

/-- The wrapper actors of the registered background functions, in
registration order, tagged `background i` from index `i` upward
(the `for _, runFn := range r.runners` loop). -/
def backgroundActors (ctx : Ctx) (fns : List RunFn) (i : Nat) :
    List (ActorId × GroupActor) :=
  match fns with
  | [] => []
  | fn :: rest => (.background i, backgroundActor ctx fn) :: backgroundActors ctx rest (i + 1)

/-- The actor sequence `Run(ctx, mu)` registers on the group, in `Add`
order: the http server actor from `startHttpServer` (absent in testing
mode), then the cancellation watcher closing the returned server and the
cleanups, then one wrapper per background function. -/
def Runner.runActors (r : Runner) (ctx : Ctx) (serveErr srvCloseErr : Option GoErr) :
    List (ActorId × GroupActor) :=
  let s := r.startHttpServer serveErr srvCloseErr
  (match s.2 with
   | some a => [(.listener, a)]
   | none => [])
  ++ (.watcher, watcherActor s.1 r.cleanup)
  :: backgroundActors ctx r.runners 0

/-- The actor sequence `Async(ctx)` registers on the group: only the
wrappers of the background functions (lines 130-137). -/
def Runner.asyncActors (r : Runner) (ctx : Ctx) : List (ActorId × GroupActor) :=
  backgroundActors ctx r.runners 0

/-- How the calling process observes a `Run`/`Async` call end: normal
return, or `os.Exit(code)`. -/
inductive ExitBehavior where
  | returned
  | exited (code : Nat)
deriving DecidableEq, Repr

/-- The trailing `if err != nil { r.logger.Error(...); os.Exit(1) }` of
`Run` and `Async`, split into its two observables: `exitOf` is how the
call ends and `loggedOf` is the cause carried by the
"group runner failure" error record. -/
def exitOf (o : Outcome) : ExitBehavior :=
  match o with
  | .success => .returned
  | .failure _ => .exited 1

/-- The cause logged by the trailing `if err != nil` of `Run`/`Async`
(`none` when nothing is logged). -/
def loggedOf (o : Outcome) : Option GoErr :=
  match o with
  | .success => none
  | .failure c => some c

/-- The observable result of one `Run`/`Async` call: the group run's
result, whether the call returned or exited the process, and the cause
logged by the "group runner failure" error record (if any). -/
structure RunResult where
  group : GroupRunResult
  exit : ExitBehavior
  loggedFailure : Option GoErr
deriving Repr

/-- `func (r *runner) Run(ctx context.Context, mu http.Handler)`:
assembles the actors, runs the group (the trigger chosen by the
scheduling parameter `t`), and on a non-nil group error logs
"group runner failure" and calls `os.Exit(1)`; on `nil` returns. -/
def Runner.Run (r : Runner) (ctx : Ctx) (serveErr srvCloseErr : Option GoErr)
    (t : Fin (r.runActors ctx serveErr srvCloseErr).length) : RunResult :=
  let g := Group.run ((r.runActors ctx serveErr srvCloseErr).map Prod.snd)
    ⟨t.val, by simpa using t.isLt⟩
  { group := g
    exit := exitOf g.outcome
    loggedFailure := loggedOf g.outcome }

/-- `func (r *runner) Async(ctx context.Context)`: runs the group over
the background-function actors only; on a non-nil group error logs and
calls `os.Exit(1)`; on `nil` returns. -/
def Runner.Async (r : Runner) (ctx : Ctx)
    (t : Fin (r.asyncActors ctx).length) : RunResult :=
  let g := Group.run ((r.asyncActors ctx).map Prod.snd)
    ⟨t.val, by simpa using t.isLt⟩
  { group := g
    exit := exitOf g.outcome
    loggedFailure := loggedOf g.outcome }

/-! ## Helper lemmas -/

/-- Every element of `backgroundActors` is a background-function wrapper. -/
theorem mem_backgroundActors {ctx : Ctx} {fns : List RunFn} {i : Nat}
    {p : ActorId × GroupActor} (hp : p ∈ backgroundActors ctx fns i) :
    ∃ j fn, p = (ActorId.background j, backgroundActor ctx fn) := by
  induction fns generalizing i with
  | nil => simp [backgroundActors] at hp
  | cons fn rest ih =>
    simp only [backgroundActors, List.mem_cons] at hp
    rcases hp with h | h
    · exact ⟨i, fn, h⟩
    · exact ih h

/-- The identities of the background wrappers starting at index `i`. -/
theorem map_fst_backgroundActors (ctx : Ctx) (fns : List RunFn) (i : Nat) :
    (backgroundActors ctx fns i).map Prod.fst
      = (List.range' i fns.length).map ActorId.background := by
  induction fns generalizing i with
  | nil => simp [backgroundActors]
  | cons fn rest ih =>
    simp [backgroundActors, List.range'_succ, ih]

/-- In testing mode, `Run` assembles the watcher (over the no-op closer)
followed by the background wrappers; no listener actor. -/
theorem runActors_testing {r : Runner} (ctx : Ctx) (serveErr srvCloseErr : Option GoErr)
    (hT : r.forTesting = true) :
    r.runActors ctx serveErr srvCloseErr
      = (ActorId.watcher, watcherActor { closeErr := none } r.cleanup)
        :: backgroundActors ctx r.runners 0 := by
  simp [Runner.runActors, Runner.startHttpServer, hT]

/-- Outside testing mode, `Run` assembles the http server actor, then the
watcher (over the real server's closer), then the background wrappers. -/
theorem runActors_real {r : Runner} (ctx : Ctx) (serveErr srvCloseErr : Option GoErr)
    (hT : r.forTesting = false) :
    r.runActors ctx serveErr srvCloseErr
      = (ActorId.listener, listenerActor serveErr)
        :: (ActorId.watcher, watcherActor { closeErr := srvCloseErr } r.cleanup)
        :: backgroundActors ctx r.runners 0 := by
  simp [Runner.runActors, Runner.startHttpServer, hT]

/-- Case analysis for membership in the actor list `Run` assembles. -/
theorem mem_runActors {r : Runner} {ctx : Ctx} {serveErr srvCloseErr : Option GoErr}
    {p : ActorId × GroupActor} (hp : p ∈ r.runActors ctx serveErr srvCloseErr) :
    (r.forTesting = false ∧ p = (ActorId.listener, listenerActor serveErr))
    ∨ p = (ActorId.watcher,
        watcherActor (r.startHttpServer serveErr srvCloseErr).1 r.cleanup)
    ∨ ∃ j fn, p = (ActorId.background j, backgroundActor ctx fn) := by
  by_cases hT : r.forTesting
  · rw [runActors_testing ctx serveErr srvCloseErr hT, List.mem_cons] at hp
    rcases hp with h | h
    · exact Or.inr (Or.inl (by simp [Runner.startHttpServer, hT, h]))
    · exact Or.inr (Or.inr (mem_backgroundActors h))
  · rw [runActors_real ctx serveErr srvCloseErr (by simpa using hT),
      List.mem_cons, List.mem_cons] at hp
    rcases hp with h | h | h
    · exact Or.inl ⟨by simpa using hT, h⟩
    · exact Or.inr (Or.inl (by simp [Runner.startHttpServer, hT, h]))
    · exact Or.inr (Or.inr (mem_backgroundActors h))

/-- The only actor tagged `watcher` in `Run`'s assembly is the
cancellation watcher over the registered cleanups. -/
theorem watcher_actor_eq {r : Runner} {ctx : Ctx} {serveErr srvCloseErr : Option GoErr}
    {p : ActorId × GroupActor} (hp : p ∈ r.runActors ctx serveErr srvCloseErr)
    (hw : p.1 = ActorId.watcher) :
    p.2 = watcherActor (r.startHttpServer serveErr srvCloseErr).1 r.cleanup := by
  rcases mem_runActors hp with ⟨_, h⟩ | h | ⟨j, fn, h⟩
  · rw [h] at hw; cases hw
  · rw [h]
  · rw [h] at hw; cases hw

/-! ## Claim theorems -/

/-- C1: For every run of the actor group with N registered actors, when
the first actor's `execute` returns with outcome O (the trigger, at index
`t`), `interrupt` is called exactly once on each of the other N-1 actors
and zero times on the trigger, and `Run()` returns that same outcome O. -/
theorem group_first_exit_fanout (actors : List GroupActor)
    (t i : Fin actors.length) :
    (Group.run actors t).interrupts.count i.val
        = (if i.val = t.val then 0 else 1)
    ∧ (Group.run actors t).outcome = (actors.get t).execute.2 := by
  constructor
  · show ((List.range actors.length).filter (fun j => j ≠ t.val)).count i.val = _
    by_cases h : i.val = t.val
    · rw [if_pos h]
      exact List.count_eq_zero_of_not_mem (by simp [List.mem_filter, h])
    · rw [if_neg h]
      exact List.count_eq_one_of_mem ((List.nodup_range _).filter _)
        (by simp [List.mem_filter, List.mem_range, i.isLt, h])
  · rfl

/-- C4: The http server actor's `execute` returns `Success` exactly when
serving ended with no error or with `http.ErrServerClosed` (the listener
was closed); it yields `Failure e` if and only if serving ended with a
non-nil error `e` other than `http.ErrServerClosed`. -/
theorem listener_failure_iff (serveErr : Option GoErr) (c : GoErr) :
    ((listenerActor serveErr).execute.2 = Outcome.failure c
      ↔ serveErr = some c ∧ c ≠ GoErr.serverClosed)
    ∧ ((listenerActor serveErr).execute.2 = Outcome.success
      ↔ serveErr = none ∨ serveErr = some GoErr.serverClosed) := by
  constructor
  · show serverExecute serveErr = _ ↔ _
    match serveErr with
    | none => simp [serverExecute]
    | some .serverClosed =>
      exact ⟨fun h => Outcome.noConfusion h,
        fun h => absurd (Option.some.inj h.1).symm h.2⟩
    | some (.other msg) =>
      cases c with
      | serverClosed => simp [serverExecute]
      | other m => simp [serverExecute, eq_comm]
  · show serverExecute serveErr = _ ↔ _
    match serveErr with
    | none => simp [serverExecute]
    | some .serverClosed => simp [serverExecute]
    | some (.other msg) => simp [serverExecute]

/-- C8: the derived address is the host, a colon, and the decimal port;
`NewEnvConfig` without explicit values defaults the port to 8000 and the
host to the empty string, and `NewConfig name p` yields address `":p"`. -/
theorem config_address (name host : String) (p : Int) :
    (NewConfigWithHost name host p).addr = host ++ ":" ++ toString p
    ∧ (NewConfig name p).addr = ":" ++ toString p
    ∧ NewEnvConfig.ServerPort = 8000
    ∧ NewEnvConfig.HostName = ""
    ∧ NewEnvConfig.addr = ":8000" := by
  refine ⟨rfl, rfl, rfl, rfl, rfl⟩

/-- C9: testing mode is enabled iff exactly one variadic testing argument
is supplied and it is `true` — both for `New` and for `NewEnv`. -/
theorem testing_flag_iff (cfg : DefaultConfig) (lg : Nat) (ts : List Bool) :
    ((New cfg lg ts).forTesting = true ↔ ts = [true])
    ∧ ((NewEnv lg ts).forTesting = true ↔ ts = [true]) := by
  have h : ∀ us : List Bool, (us.length == 1 && us.headD false) = true ↔ us = [true] := by
    intro us
    match us with
    | [] => simp
    | [b] => cases b <;> simp
    | a :: b :: l => simp
  exact ⟨h ts, h ts⟩

/-- C10: `AddRunner` appends to the background-function list and returns
the runner with every other field unchanged; `OnClose` appends to the
cleanup list and returns the runner with every other field unchanged. -/
theorem add_runner_on_close_frame (r : Runner) (fns : List RunFn) (cs : List Closer) :
    (r.AddRunner fns).runners = r.runners ++ fns
    ∧ (r.AddRunner fns).cleanup = r.cleanup
    ∧ (r.AddRunner fns).serverConfig = r.serverConfig
    ∧ (r.AddRunner fns).logger = r.logger
    ∧ (r.AddRunner fns).forTesting = r.forTesting
    ∧ (r.OnClose cs).cleanup = r.cleanup ++ cs
    ∧ (r.OnClose cs).runners = r.runners
    ∧ (r.OnClose cs).serverConfig = r.serverConfig
    ∧ (r.OnClose cs).logger = r.logger
    ∧ (r.OnClose cs).forTesting = r.forTesting := by
  refine ⟨rfl, rfl, rfl, rfl, rfl, rfl, rfl, rfl, rfl, rfl⟩

/-- A concrete runner for witnesses: config `svc:8080`, one background
function, two cleanups (the first failing on release), not testing. -/
def sampleRunner : Runner :=
  ((New (NewConfig "svc" 8080) 0 []).AddRunner [fun _ => []]).OnClose
    [{ closeErr := some (.other "dbErr") }, { closeErr := none }]

/-- A concrete runner in testing mode, with one background function and
one cleanup. -/
def sampleTestingRunner : Runner :=
  ((New (NewConfig "svc" 8080) 0 [true]).AddRunner [fun _ => []]).OnClose
    [{ closeErr := none }]

/-- C2: whenever the trigger of a `Run` is the cancellation watcher (the
signal fired first), the trace it emitted before `Run()` returned is:
close the listener, then release cleanup 0, 1, …, n-1 in registration
order (regardless of the errors the releases return), its outcome is
`Success`, and `Run()` returns normally. -/
theorem watcher_trigger_cleanup (r : Runner) (ctx : Ctx)
    (serveErr srvCloseErr : Option GoErr)
    (t : Fin (r.runActors ctx serveErr srvCloseErr).length)
    (hw : ((r.runActors ctx serveErr srvCloseErr).get t).1 = ActorId.watcher) :
    (r.Run ctx serveErr srvCloseErr t).group.triggerTrace
        = Event.closeListener :: (List.range r.cleanup.length).map Event.release
    ∧ (r.Run ctx serveErr srvCloseErr t).group.outcome = Outcome.success
    ∧ (r.Run ctx serveErr srvCloseErr t).exit = ExitBehavior.returned := by
  have key : ((r.runActors ctx serveErr srvCloseErr).get t).2
      = watcherActor (r.startHttpServer serveErr srvCloseErr).1 r.cleanup :=
    watcher_actor_eq (List.get_mem _ t.val t.isLt) hw
  have houtcome : (r.Run ctx serveErr srvCloseErr t).group.outcome = Outcome.success := by
    show (((r.runActors ctx serveErr srvCloseErr).map Prod.snd).get
      ⟨t.val, by simpa using t.isLt⟩).execute.2 = Outcome.success
    simp only [List.get_eq_getElem, List.getElem_map]
    rw [show getElem (r.runActors ctx serveErr srvCloseErr) t.val t.isLt
      = (r.runActors ctx serveErr srvCloseErr).get t from rfl, key]
    rfl
  refine ⟨?_, houtcome, ?_⟩
  · show (((r.runActors ctx serveErr srvCloseErr).map Prod.snd).get
      ⟨t.val, by simpa using t.isLt⟩).execute.1 = _
    simp only [List.get_eq_getElem, List.getElem_map]
    rw [show getElem (r.runActors ctx serveErr srvCloseErr) t.val t.isLt
      = (r.runActors ctx serveErr srvCloseErr).get t from rfl, key]
    rfl
  · show exitOf (r.Run ctx serveErr srvCloseErr t).group.outcome = ExitBehavior.returned
    rw [houtcome]
    rfl

/-- C2 witness: on `sampleRunner` with the watcher (index 1) as trigger,
the trace closes the listener then releases cleanups 0 and 1 in order,
and `Run` returns normally with a `Success` group outcome. -/
theorem watcher_trigger_cleanup_witness :
    (sampleRunner.Run 0 none none ⟨1, by decide⟩).group.triggerTrace
        = [Event.closeListener, Event.release 0, Event.release 1]
    ∧ (sampleRunner.Run 0 none none ⟨1, by decide⟩).group.outcome = Outcome.success
    ∧ (sampleRunner.Run 0 none none ⟨1, by decide⟩).exit = ExitBehavior.returned := by
  have h := watcher_trigger_cleanup sampleRunner 0 none none ⟨1, by decide⟩ rfl
  simpa using h

/-- C5: the actor wrapping a background function calls the function with
the active cancellation context and returns `Success` unconditionally;
consequently every actor of `Run`'s assembly that is not the listener —
in particular every background wrapper — has a `Success` execute outcome,
so a returning background function can never make the group outcome a
`Failure`. -/
theorem background_never_fails (r : Runner) (ctx : Ctx)
    (serveErr srvCloseErr : Option GoErr) (fn : RunFn) :
    (backgroundActor ctx fn).execute = (fn ctx, Outcome.success)
    ∧ ∀ p ∈ r.runActors ctx serveErr srvCloseErr,
        p.1 ≠ ActorId.listener → p.2.execute.2 = Outcome.success := by
  refine ⟨rfl, fun p hp hnl => ?_⟩
  rcases mem_runActors hp with ⟨_, h⟩ | h | ⟨j, g, h⟩
  · exact absurd (by rw [h]) hnl
  · subst h; rfl
  · subst h; rfl

/-- C5 witness: the background wrapper at index 2 of `sampleRunner`'s
assembly has a `Success` execute outcome even while the listener fails. -/
theorem background_never_fails_witness :
    ((sampleRunner.runActors 0 (some (.other "boom")) none).get
        ⟨2, by decide⟩).2.execute.2 = Outcome.success :=
  (background_never_fails sampleRunner 0 (some (.other "boom")) none
      (fun _ => [])).2 _
    (List.get_mem _ 2 (by decide)) (by decide)

/-- C6: for both `Run` and `Async`, the call exits the process with
status 1 and logs the cause exactly when the group outcome is a
`Failure`, and returns normally (logging nothing) exactly when the group
outcome is `Success`. -/
theorem failure_exit_success_return (r : Runner) (ctx : Ctx)
    (serveErr srvCloseErr : Option GoErr)
    (t : Fin (r.runActors ctx serveErr srvCloseErr).length)
    (u : Fin (r.asyncActors ctx).length) :
    ((r.Run ctx serveErr srvCloseErr t).exit = ExitBehavior.exited 1
      ↔ ∃ c, (r.Run ctx serveErr srvCloseErr t).group.outcome = Outcome.failure c)
    ∧ ((r.Run ctx serveErr srvCloseErr t).exit = ExitBehavior.returned
      ↔ (r.Run ctx serveErr srvCloseErr t).group.outcome = Outcome.success)
    ∧ (∀ c, (r.Run ctx serveErr srvCloseErr t).loggedFailure = some c
      ↔ (r.Run ctx serveErr srvCloseErr t).group.outcome = Outcome.failure c)
    ∧ ((r.Async ctx u).exit = ExitBehavior.exited 1
      ↔ ∃ c, (r.Async ctx u).group.outcome = Outcome.failure c)
    ∧ ((r.Async ctx u).exit = ExitBehavior.returned
      ↔ (r.Async ctx u).group.outcome = Outcome.success)
    ∧ (∀ c, (r.Async ctx u).loggedFailure = some c
      ↔ (r.Async ctx u).group.outcome = Outcome.failure c) := by
  have hrun : ∀ o : Outcome,
      (exitOf o = ExitBehavior.exited 1 ↔ ∃ c, o = Outcome.failure c)
      ∧ (exitOf o = ExitBehavior.returned ↔ o = Outcome.success)
      ∧ ∀ c, (loggedOf o = some c ↔ o = Outcome.failure c) := by
    intro o
    cases o <;> simp [exitOf, loggedOf]
  exact ⟨(hrun _).1, (hrun _).2.1, (hrun _).2.2,
    (hrun _).1, (hrun _).2.1, (hrun _).2.2⟩

/-- C7: with the testing flag set, `startHttpServer` binds nothing — it
registers no listener actor and hands back the no-op closer whose `Close`
returns nil — and the rest of the assembly is unchanged: the non-testing
assembly of the same runner is exactly the listener actor prepended to
the testing assembly, so watcher and background actors keep the same
order and behavior, including the cancellation-triggered cleanup trace. -/
theorem testing_mode_assembly (r : Runner) (ctx : Ctx)
    (serveErr srvCloseErr : Option GoErr) (hT : r.forTesting = true) :
    r.startHttpServer serveErr srvCloseErr = ({ closeErr := none }, none)
    ∧ (r.startHttpServer serveErr srvCloseErr).1.Close = none
    ∧ r.runActors ctx serveErr srvCloseErr
        = (ActorId.watcher, watcherActor { closeErr := none } r.cleanup)
          :: backgroundActors ctx r.runners 0
    ∧ ({ r with forTesting := false } : Runner).runActors ctx serveErr srvCloseErr
        = (ActorId.listener, listenerActor serveErr)
          :: r.runActors ctx serveErr srvCloseErr := by
  refine ⟨?_, ?_, runActors_testing ctx serveErr srvCloseErr hT, ?_⟩
  · simp [Runner.startHttpServer, hT]
  · simp [Runner.startHttpServer, hT, Closer.Close]
  · rw [runActors_testing ctx serveErr srvCloseErr hT,
      runActors_real (r := { r with forTesting := false }) ctx serveErr srvCloseErr rfl]
    rfl

/-- C7 witness: `sampleTestingRunner` binds no listener, its server
handle's `Close` returns nil, and its assembly is the watcher followed by
the background wrapper. -/
theorem testing_mode_assembly_witness :
    sampleTestingRunner.startHttpServer (some (.other "bind")) none
        = ({ closeErr := none }, none)
    ∧ (sampleTestingRunner.runActors 0 (some (.other "bind")) none).map Prod.fst
        = [ActorId.watcher, ActorId.background 0] := by
  have h := testing_mode_assembly sampleTestingRunner 0 (some (.other "bind")) none rfl
  exact ⟨h.1, by rw [h.2.2.1]; rfl⟩

/-- C3 counterexample: on the concrete runner with one registered cleanup
and no background functions, `Async` assembles the empty actor set, while
`Run`'s assembly minus the listener still contains the watcher — so
`Async` is not `Run`'s assembly minus the listener, and it does not
include the cancellation-watcher actor. -/
theorem async_counterexample :
    ¬ ((((New (NewConfig "svc" 8080) 0 []).OnClose
          [{ closeErr := none }]).asyncActors 0).map Prod.fst
        = (((((New (NewConfig "svc" 8080) 0 []).OnClose
          [{ closeErr := none }]).runActors 0 none none).map Prod.fst).filter
            (fun a => !(a == ActorId.listener))))
    ∧ ActorId.watcher ∉ (((New (NewConfig "svc" 8080) 0 []).OnClose
          [{ closeErr := none }]).asyncActors 0).map Prod.fst := by
  constructor
  · intro h
    rw [show ((((New (NewConfig "svc" 8080) 0 []).OnClose
        [{ closeErr := none }]).asyncActors 0).map Prod.fst) = [] from rfl] at h
    exact List.noConfusion h.symm
  · intro h
    exact List.not_mem_nil _ h

/-- C3 amended: `Async` assembles only the background-function wrappers —
`Run`'s assembly minus both the `ListenerActor` and the cancellation
watcher. In particular the watcher is absent, so `Async` runs no
cancellation-triggered cleanup. -/
theorem async_actors_assembly (r : Runner) (ctx : Ctx)
    (serveErr srvCloseErr : Option GoErr) :
    (r.asyncActors ctx).map Prod.fst
        = (List.range' 0 r.runners.length).map ActorId.background
    ∧ (r.runActors ctx serveErr srvCloseErr).map Prod.fst
        = (if r.forTesting then [] else [ActorId.listener])
          ++ ActorId.watcher
          :: (List.range' 0 r.runners.length).map ActorId.background
    ∧ ActorId.watcher ∉ (r.asyncActors ctx).map Prod.fst := by
  refine ⟨map_fst_backgroundActors ctx r.runners 0, ?_, ?_⟩
  · by_cases hT : r.forTesting
    · rw [runActors_testing ctx serveErr srvCloseErr hT]
      simp [hT, map_fst_backgroundActors]
    · rw [runActors_real ctx serveErr srvCloseErr (by simpa using hT)]
      simp [hT, map_fst_backgroundActors]
  · show ActorId.watcher ∉ (backgroundActors ctx r.runners 0).map Prod.fst
    rw [map_fst_backgroundActors ctx r.runners 0]
    simp

end ServiceRunner
